import Mathlib

/-!
Shallow embedding of the lowRISC USB device controller driver
(chips/lowrisc/src/usbdev.rs) and proofs about its state machine,
register writes and endpoint descriptor table.

Registers are modelled as 32-bit values (Nat, reduced modulo 2 ^ 32 at
each write).  Every public operation is a pure function from the driver
state to an `OpResult` carrying the outcome (normal return, debug log,
panic, or an `unimplemented` abort), the new driver state, and the exact
list of register writes performed, in order.  The tock-registers
primitives `write(FIELD::SET)` and `set(v)` both store a full 32-bit
value into the register (a `write` of a single one-bit field stores
exactly that field's bit and zeroes the rest), which is how they are
rendered below.
-/

namespace Usbdev

/-- Transfer types of the USB HIL contract (kernel::hil::usb::TransferType). -/
inductive TransferType
  | control
  | bulk
  | interrupt
  | isochronous
deriving DecidableEq

/-- Device speeds of the USB HIL contract (kernel::hil::usb::DeviceSpeed). -/
inductive DeviceSpeed
  | full
  | low
deriving DecidableEq

/-- Number of hardware endpoints (`N_ENDPOINTS` in usbdev.rs). -/
def N_ENDPOINTS : Nat := 12

/-- Control-transfer sub-state (`CtrlState`). -/
inductive CtrlState
  | init
  | readIn
  | readStatus
  | writeOut
  | writeStatus
  | writeStatusWait
  | inDelay
deriving DecidableEq

/-- Bulk IN sub-state (`BulkInState`). -/
inductive BulkInState
  | init
  | delay
deriving DecidableEq

/-- Bulk OUT sub-state (`BulkOutState`). -/
inductive BulkOutState
  | init
  | delay
deriving DecidableEq

/-- Per-endpoint runtime state (`EndpointState`). -/
inductive EndpointState
  | disabled
  | ctrl (s : CtrlState)
  | bulkIn (s : BulkInState)
  | bulkOut (s : BulkOutState)
  | iso
deriving DecidableEq

/-- `EndpointConfigValue = LocalRegisterCopy<u32, CONFIGIN::Register>`: a raw
32-bit register snapshot. -/
abbrev EndpointConfigValue := Nat

/-- `DeviceConfig`: one optional configuration snapshot per endpoint. -/
structure DeviceConfig where
  endpoint_configs : List (Option EndpointConfigValue)
deriving DecidableEq

/-- `DeviceConfig::default()`: all endpoint configurations `None`. -/
def DeviceConfig.default : DeviceConfig :=
  ⟨List.replicate N_ENDPOINTS none⟩

/-- `DeviceState`: one runtime state per endpoint. -/
structure DeviceState where
  endpoint_states : List EndpointState
deriving DecidableEq

/-- `DeviceState::default()`: all endpoints `Disabled`. -/
def DeviceState.default : DeviceState :=
  ⟨List.replicate N_ENDPOINTS EndpointState.disabled⟩

/-- Controller mode (`Mode`): host, or device with speed, configuration and
per-endpoint runtime states. -/
inductive Mode
  | host
  | device (speed : DeviceSpeed) (config : DeviceConfig) (state : DeviceState)
deriving DecidableEq

/-- Top-level controller state (`State`): disabled, enabled-but-detached, or
enabled-and-attached. -/
inductive State
  | reset
  | idle (mode : Mode)
  | active (mode : Mode)
deriving DecidableEq

/-- The software-writable registers of the `UsbRegisters` block.  The
read-only registers (`usbstat`, `rxfifo`) deliberately have no identifier
here: the driver never writes them. -/
inductive RegId
  | intrState
  | intrEnable
  | intrTest
  | usbctrl
  | avbuffer
  | rxenableSetup
  | rxenableOut
  | inSent
  | stall
  | configin (i : Nat)
  | iso
  | dataToggleClear
  | phyConfig
deriving DecidableEq

/-- A single observable register write: which register, and the full 32-bit
value stored. -/
abbrev RegWrite := RegId × Nat

/-- The register block state: current 32-bit value of every register. -/
structure Regs where
  intr_state : Nat
  intr_enable : Nat
  intr_test : Nat
  usbctrl : Nat
  usbstat : Nat
  avbuffer : Nat
  rxfifo : Nat
  rxenable_setup : Nat
  rxenable_out : Nat
  in_sent : Nat
  stall : Nat
  configin : List Nat
  iso : Nat
  data_toggle_clear : Nat
  phy_config : Nat
deriving DecidableEq

/-- A register block with every register zeroed. -/
def Regs.init : Regs :=
  { intr_state := 0
    intr_enable := 0
    intr_test := 0
    usbctrl := 0
    usbstat := 0
    avbuffer := 0
    rxfifo := 0
    rxenable_setup := 0
    rxenable_out := 0
    in_sent := 0
    stall := 0
    configin := List.replicate N_ENDPOINTS 0
    iso := 0
    data_toggle_clear := 0
    phy_config := 0 }

/-- Truncation to a 32-bit value. -/
def u32 (v : Nat) : Nat := v % 2 ^ 32

/-- Apply one register write to the register block. -/
def Regs.applyWrite (r : Regs) (w : RegWrite) : Regs :=
  match w.1 with
  | RegId.intrState => { r with intr_state := w.2 }
  | RegId.intrEnable => { r with intr_enable := w.2 }
  | RegId.intrTest => { r with intr_test := w.2 }
  | RegId.usbctrl => { r with usbctrl := w.2 }
  | RegId.avbuffer => { r with avbuffer := w.2 }
  | RegId.rxenableSetup => { r with rxenable_setup := w.2 }
  | RegId.rxenableOut => { r with rxenable_out := w.2 }
  | RegId.inSent => { r with in_sent := w.2 }
  | RegId.stall => { r with stall := w.2 }
  | RegId.configin i => { r with configin := r.configin.set i w.2 }
  | RegId.iso => { r with iso := w.2 }
  | RegId.dataToggleClear => { r with data_toggle_clear := w.2 }
  | RegId.phyConfig => { r with phy_config := w.2 }

/-- Apply a list of register writes in order. -/
def Regs.doWrites (r : Regs) (ws : List RegWrite) : Regs :=
  ws.foldl Regs.applyWrite r

/-- Outcome of one driver operation: normal return, a `debug!` log line, a
`panic!`, or the abort raised by Rust's `unimplemented!()`. -/
inductive Outcome
  | ok
  | warn (msg : String)
  | panicked (msg : String)
  | notImplemented
deriving DecidableEq

/-- Whether an outcome halts execution (a panic or an `unimplemented!()`
abort), as opposed to returning normally, possibly after a log line. -/
def Outcome.isFatal : Outcome → Bool
  | Outcome.panicked _ => true
  | Outcome.notImplemented => true
  | _ => false

def msgStateInUse : String := "get_state: state value is in use"

def msgAlreadyEnabled : String := "Already enabled"

def msgNotEnabled : String := "Not enabled"

def msgAlreadyAttached : String := "Already attached"

def msgUsbIrq : String := "USB IRQ"

def msgIndexOutOfBounds : String := "index out of bounds"

/-- The driver state (`Usb`): the register block, the endpoint descriptor
table (one buffer address per endpoint, null = 0), and the `OptionalCell`
holding the controller state (`none` = value currently taken out). -/
structure Usb where
  regs : Regs
  descriptors : List Nat
  state : Option State
deriving DecidableEq

/-- `Usb::new`: descriptor table all null, state cell holding `Reset`.  The
initial register-block contents are hardware-defined, hence a parameter. -/
def Usb.new (regs : Regs) : Usb :=
  { regs := regs
    descriptors := List.replicate N_ENDPOINTS 0
    state := some State.reset }

/-- Result of one driver operation: its outcome, the driver state when it
returns (or at the point a fatal outcome is raised), and the exact list of
register writes it performed, in order. -/
structure OpResult where
  outcome : Outcome
  usb : Usb
  writes : List RegWrite
deriving DecidableEq

/-- `get_state`: read the state cell.  Modelled from the spec: the
`OptionalCell` type lives in kernel::common::cells, outside the shown
sources; per the spec's state-access rule, reading while the cell is empty
is a fatal programmer error, and since `State` is `Copy` the read leaves
the cell's contents in place. -/
def Usb.get_state (u : Usb) : Except Outcome State :=
  match u.state with
  | none => Except.error (Outcome.panicked msgStateInUse)
  | some s => Except.ok s

/-- `set_state`: store a value into the state cell. -/
def Usb.set_state (u : Usb) (s : State) : Usb :=
  { u with state := some s }

/-- `handle_interrupt`: the reference only logs "USB IRQ"; no state or
register access. -/
def Usb.handle_interrupt (u : Usb) : OpResult :=
  ⟨Outcome.warn msgUsbIrq, u, []⟩

/-- `_endpoint_bank_set_buffer(endpoint, buf)`: store the buffer's address in
descriptor slot `endpoint`.  The source performs no bounds check; an
out-of-range index is the implicit Rust array-index panic. -/
def Usb._endpoint_bank_set_buffer (u : Usb) (endpoint : Nat) (buf : Nat) :
    OpResult :=
  if endpoint < N_ENDPOINTS then
    ⟨Outcome.ok, { u with descriptors := u.descriptors.set endpoint buf }, []⟩
  else
    ⟨Outcome.panicked msgIndexOutOfBounds, u, []⟩

/-- The three writes of `_enable`: `rxenable_setup.write(SETUP0::SET)`,
`rxenable_out.write(OUT0::SET)`, `usbctrl.write(ENABLE::SET)`. -/
def enableWrites : List RegWrite :=
  [(RegId.rxenableSetup, 1), (RegId.rxenableOut, 1), (RegId.usbctrl, 1)]

/-- `_enable(mode)`: from `Reset`, perform the three enable writes and move
to `Idle(mode)`; from any other state, `panic!("Already enabled")`. -/
def Usb._enable (u : Usb) (mode : Mode) : OpResult :=
  match u.get_state with
  | Except.error o => ⟨o, u, []⟩
  | Except.ok State.reset =>
      ⟨Outcome.ok,
       { u with regs := u.regs.doWrites enableWrites
                state := some (State.idle mode) },
       enableWrites⟩
  | Except.ok _ => ⟨Outcome.panicked msgAlreadyEnabled, u, []⟩

/-- `enable_as_device(speed)`: from `Reset`, delegate to `_enable` with a
fresh device mode; otherwise log "Already enabled" and return. -/
def Usb.enable_as_device (u : Usb) (speed : DeviceSpeed) : OpResult :=
  match u.get_state with
  | Except.error o => ⟨o, u, []⟩
  | Except.ok State.reset =>
      u._enable (Mode.device speed DeviceConfig.default DeviceState.default)
  | Except.ok _ => ⟨Outcome.warn msgAlreadyEnabled, u, []⟩

/-- The three writes of `attach` in the `Idle` case:
`rxenable_setup.write(SETUP10::SET)` (value `1 <<< 10`),
`rxenable_out.write(OUT0::SET)`, `usbctrl.write(ENABLE::SET)`. -/
def attachWrites : List RegWrite :=
  [(RegId.rxenableSetup, 1024), (RegId.rxenableOut, 1), (RegId.usbctrl, 1)]

/-- `attach()`: from `Idle(mode)`, perform the attach writes and move to
`Active(mode)`; from `Reset` or `Active`, log a warning and do nothing. -/
def Usb.attach (u : Usb) : OpResult :=
  match u.get_state with
  | Except.error o => ⟨o, u, []⟩
  | Except.ok State.reset => ⟨Outcome.warn msgNotEnabled, u, []⟩
  | Except.ok (State.active _) => ⟨Outcome.warn msgAlreadyAttached, u, []⟩
  | Except.ok (State.idle mode) =>
      ⟨Outcome.ok,
       { u with regs := u.regs.doWrites attachWrites
                state := some (State.active mode) },
       attachWrites⟩

/-- `endpoint_set_ctrl_buffer(buf)`: stage a buffer for endpoint 0. -/
def Usb.endpoint_set_ctrl_buffer (u : Usb) (buf : Nat) : OpResult :=
  u._endpoint_bank_set_buffer 0 buf

/-- `endpoint_set_in_buffer(endpoint, buf)`. -/
def Usb.endpoint_set_in_buffer (u : Usb) (endpoint : Nat) (buf : Nat) :
    OpResult :=
  u._endpoint_bank_set_buffer endpoint buf

/-- `endpoint_set_out_buffer(endpoint, buf)`. -/
def Usb.endpoint_set_out_buffer (u : Usb) (endpoint : Nat) (buf : Nat) :
    OpResult :=
  u._endpoint_bank_set_buffer endpoint buf

/-- `detach()`: `unimplemented!()`. -/
def Usb.detach (u : Usb) : OpResult :=
  ⟨Outcome.notImplemented, u, []⟩

/-- `set_address(addr)`: `unimplemented!()`. -/
def Usb.set_address (u : Usb) (_addr : Nat) : OpResult :=
  ⟨Outcome.notImplemented, u, []⟩

/-- `enable_address()`: `unimplemented!()`. -/
def Usb.enable_address (u : Usb) : OpResult :=
  ⟨Outcome.notImplemented, u, []⟩

/-- `endpoint_in_enable(transfer_type, endpoint)`: `Control` and `Bulk` store
`1 <<< endpoint` into `rxenable_setup` and `rxenable_out`; `Isochronous`
additionally stores it into `iso`; `Interrupt` is `unimplemented!()`. -/
def Usb.endpoint_in_enable (u : Usb) (transfer_type : TransferType)
    (endpoint : Nat) : OpResult :=
  match transfer_type with
  | TransferType.control =>
      let ws : List RegWrite :=
        [(RegId.rxenableSetup, u32 (1 <<< endpoint)),
         (RegId.rxenableOut, u32 (1 <<< endpoint))]
      ⟨Outcome.ok, { u with regs := u.regs.doWrites ws }, ws⟩
  | TransferType.bulk =>
      let ws : List RegWrite :=
        [(RegId.rxenableSetup, u32 (1 <<< endpoint)),
         (RegId.rxenableOut, u32 (1 <<< endpoint))]
      ⟨Outcome.ok, { u with regs := u.regs.doWrites ws }, ws⟩
  | TransferType.interrupt => ⟨Outcome.notImplemented, u, []⟩
  | TransferType.isochronous =>
      let ws : List RegWrite :=
        [(RegId.rxenableSetup, u32 (1 <<< endpoint)),
         (RegId.rxenableOut, u32 (1 <<< endpoint)),
         (RegId.iso, u32 (1 <<< endpoint))]
      ⟨Outcome.ok, { u with regs := u.regs.doWrites ws }, ws⟩

/-- `endpoint_out_enable(transfer_type, endpoint)`: `Control` and `Bulk`
store `1 <<< endpoint` into `rxenable_setup` only; `Isochronous` also into
`iso`; `Interrupt` is `unimplemented!()`. -/
def Usb.endpoint_out_enable (u : Usb) (transfer_type : TransferType)
    (endpoint : Nat) : OpResult :=
  match transfer_type with
  | TransferType.control =>
      let ws : List RegWrite := [(RegId.rxenableSetup, u32 (1 <<< endpoint))]
      ⟨Outcome.ok, { u with regs := u.regs.doWrites ws }, ws⟩
  | TransferType.bulk =>
      let ws : List RegWrite := [(RegId.rxenableSetup, u32 (1 <<< endpoint))]
      ⟨Outcome.ok, { u with regs := u.regs.doWrites ws }, ws⟩
  | TransferType.interrupt => ⟨Outcome.notImplemented, u, []⟩
  | TransferType.isochronous =>
      let ws : List RegWrite :=
        [(RegId.rxenableSetup, u32 (1 <<< endpoint)),
         (RegId.iso, u32 (1 <<< endpoint))]
      ⟨Outcome.ok, { u with regs := u.regs.doWrites ws }, ws⟩

/-- `endpoint_in_out_enable(transfer_type, endpoint)`: `unimplemented!()`. -/
def Usb.endpoint_in_out_enable (u : Usb) (_transfer_type : TransferType)
    (_endpoint : Nat) : OpResult :=
  ⟨Outcome.notImplemented, u, []⟩

/-- `endpoint_resume_in(endpoint)`: `unimplemented!()`. -/
def Usb.endpoint_resume_in (u : Usb) (_endpoint : Nat) : OpResult :=
  ⟨Outcome.notImplemented, u, []⟩

/-- `endpoint_resume_out(endpoint)`: `unimplemented!()`. -/
def Usb.endpoint_resume_out (u : Usb) (_endpoint : Nat) : OpResult :=
  ⟨Outcome.notImplemented, u, []⟩

/-- One invocation of a public operation of the `UsbController` contract (or
the interrupt entry point), with its arguments. -/
inductive Op
  | enableAsDevice (speed : DeviceSpeed)
  | attach
  | detach
  | setAddress (a : Nat)
  | enableAddress
  | endpointInEnable (t : TransferType) (e : Nat)
  | endpointOutEnable (t : TransferType) (e : Nat)
  | endpointInOutEnable (t : TransferType) (e : Nat)
  | endpointResumeIn (e : Nat)
  | endpointResumeOut (e : Nat)
  | setCtrlBuffer (b : Nat)
  | setInBuffer (e : Nat) (b : Nat)
  | setOutBuffer (e : Nat) (b : Nat)
  | handleInterrupt
deriving DecidableEq

/-- Driver state after invoking one public operation. -/
def Usb.step (u : Usb) (op : Op) : Usb :=
  match op with
  | Op.enableAsDevice speed => (u.enable_as_device speed).usb
  | Op.attach => u.attach.usb
  | Op.detach => u.detach.usb
  | Op.setAddress a => (u.set_address a).usb
  | Op.enableAddress => u.enable_address.usb
  | Op.endpointInEnable t e => (u.endpoint_in_enable t e).usb
  | Op.endpointOutEnable t e => (u.endpoint_out_enable t e).usb
  | Op.endpointInOutEnable t e => (u.endpoint_in_out_enable t e).usb
  | Op.endpointResumeIn e => (u.endpoint_resume_in e).usb
  | Op.endpointResumeOut e => (u.endpoint_resume_out e).usb
  | Op.setCtrlBuffer b => (u.endpoint_set_ctrl_buffer b).usb
  | Op.setInBuffer e b => (u.endpoint_set_in_buffer e b).usb
  | Op.setOutBuffer e b => (u.endpoint_set_out_buffer e b).usb
  | Op.handleInterrupt => u.handle_interrupt.usb

/-- Driver state after a sequence of public operations. -/
def Usb.run (u : Usb) (ops : List Op) : Usb :=
  ops.foldl Usb.step u

/-- Whether a mode is the device variant (the driver never constructs
`Mode::Host`). -/
def Mode.isDevice : Mode → Bool
  | Mode.host => false
  | Mode.device _ _ _ => true

/-- Whether a controller state is `Reset` or carries a device mode. -/
def State.deviceOnly : State → Bool
  | State.reset => true
  | State.idle m => m.isDevice
  | State.active m => m.isDevice

/-- The device mode produced by `enable_as_device(Full)`. -/
def idleDeviceMode : Mode :=
  Mode.device DeviceSpeed.full DeviceConfig.default DeviceState.default

/-- A concrete enabled-but-detached driver state. -/
def usbIdle : Usb :=
  { regs := Regs.init
    descriptors := List.replicate N_ENDPOINTS 0
    state := some (State.idle idleDeviceMode) }

/-- A concrete attached driver state. -/
def usbActive : Usb :=
  { regs := Regs.init
    descriptors := List.replicate N_ENDPOINTS 0
    state := some (State.active idleDeviceMode) }

theorem u32_one_shiftLeft (e : Nat) (h : e < 32) : u32 (1 <<< e) = 1 <<< e := by
  have h2 : (1 : Nat) <<< e < 2 ^ 32 := by
    rw [Nat.shiftLeft_eq, one_mul]
    exact Nat.pow_lt_pow_right (by norm_num) h
  exact Nat.mod_eq_of_lt h2

/-- C1: from `Reset`, `enable_as_device(speed)` returns normally, moves the
state to `Idle(Device{speed, default config (all endpoint configs None),
all 12 endpoint states Disabled})`, and performs exactly three register
writes: value 1 (bit 0) to `rxenable_setup`, value 1 (bit 0) to
`rxenable_out`, and value 1 (the ENABLE bit) to `usbctrl`. -/
theorem claim_C1 (speed : DeviceSpeed) (u : Usb)
    (h : u.state = some State.reset) :
    u.enable_as_device speed =
      ⟨Outcome.ok,
       { u with regs := u.regs.doWrites enableWrites
                state := some (State.idle
                  (Mode.device speed DeviceConfig.default DeviceState.default)) },
       enableWrites⟩ ∧
    enableWrites =
      [(RegId.rxenableSetup, 1), (RegId.rxenableOut, 1), (RegId.usbctrl, 1)] ∧
    DeviceConfig.default =
      ⟨List.replicate 12 (none : Option EndpointConfigValue)⟩ ∧
    DeviceState.default = ⟨List.replicate 12 EndpointState.disabled⟩ ∧
    u.regs.doWrites enableWrites =
      { u.regs with rxenable_setup := 1, rxenable_out := 1, usbctrl := 1 } := by
  refine ⟨?_, rfl, rfl, rfl, rfl⟩
  simp [Usb.enable_as_device, Usb.get_state, h, Usb._enable]

theorem claim_C1_witness :
    (Usb.new Regs.init).state = some State.reset ∧
    (Usb.new Regs.init).enable_as_device DeviceSpeed.full =
      ⟨Outcome.ok,
       { Usb.new Regs.init with
           regs := (Usb.new Regs.init).regs.doWrites enableWrites
           state := some (State.idle
             (Mode.device DeviceSpeed.full DeviceConfig.default
               DeviceState.default)) },
       enableWrites⟩ :=
  ⟨rfl, (claim_C1 DeviceSpeed.full (Usb.new Regs.init) rfl).1⟩

/-- C2: `attach()` from `Idle(mode)` returns normally and moves the state to
`Active(mode)` with the identical mode payload; from `Active` it leaves
the driver state unchanged, logs "Already attached", and performs zero
register writes; from `Reset` it leaves the driver state unchanged, logs
"Not enabled", and performs zero register writes. -/
theorem claim_C2 (u : Usb) :
    (∀ mode, u.state = some (State.idle mode) →
      u.attach =
        ⟨Outcome.ok,
         { u with regs := u.regs.doWrites attachWrites
                  state := some (State.active mode) },
         attachWrites⟩) ∧
    (∀ mode, u.state = some (State.active mode) →
      u.attach = ⟨Outcome.warn msgAlreadyAttached, u, []⟩) ∧
    (u.state = some State.reset →
      u.attach = ⟨Outcome.warn msgNotEnabled, u, []⟩) := by
  refine ⟨fun mode h => ?_, fun mode h => ?_, fun h => ?_⟩ <;>
    simp [Usb.attach, Usb.get_state, h]

theorem claim_C2_witness :
    usbIdle.attach =
      ⟨Outcome.ok,
       { usbIdle with regs := usbIdle.regs.doWrites attachWrites
                      state := some (State.active idleDeviceMode) },
       attachWrites⟩ ∧
    usbActive.attach = ⟨Outcome.warn msgAlreadyAttached, usbActive, []⟩ ∧
    (Usb.new Regs.init).attach =
      ⟨Outcome.warn msgNotEnabled, Usb.new Regs.init, []⟩ :=
  ⟨(claim_C2 usbIdle).1 idleDeviceMode rfl,
   (claim_C2 usbActive).2.1 idleDeviceMode rfl,
   (claim_C2 (Usb.new Regs.init)).2.2 rfl⟩

/-- C3 counterexample: calling `enable_as_device` on a controller in
`Idle` does not halt: it returns normally after logging "Already enabled"
(`debug!`, not `panic!`), so the claim's "fatal programmer error (halts)"
is false.  The guard in `enable_as_device` makes the panicking branch of
`_enable` unreachable from the public method. -/
theorem claim_C3_counterexample :
    usbIdle.enable_as_device DeviceSpeed.full =
      ⟨Outcome.warn msgAlreadyEnabled, usbIdle, []⟩ ∧
    Outcome.isFatal (usbIdle.enable_as_device DeviceSpeed.full).outcome =
      false :=
  ⟨rfl, rfl⟩

/-- C3 amended: calling `enable_as_device(speed)` in any state other than
`Reset` is rejected with a non-fatal "Already enabled" log line, leaves the
controller state (and the whole driver state) unchanged, and issues no
register writes. -/
theorem claim_C3_amended (speed : DeviceSpeed) (u : Usb) (s : State)
    (h : u.state = some s) (hne : s ≠ State.reset) :
    u.enable_as_device speed = ⟨Outcome.warn msgAlreadyEnabled, u, []⟩ ∧
    Outcome.isFatal (Outcome.warn msgAlreadyEnabled) = false := by
  cases s with
  | reset => exact absurd rfl hne
  | idle m => exact ⟨by simp [Usb.enable_as_device, Usb.get_state, h], rfl⟩
  | active m => exact ⟨by simp [Usb.enable_as_device, Usb.get_state, h], rfl⟩

theorem claim_C3_amended_witness :
    usbActive.enable_as_device DeviceSpeed.low =
      ⟨Outcome.warn msgAlreadyEnabled, usbActive, []⟩ ∧
    Outcome.isFatal (Outcome.warn msgAlreadyEnabled) = false :=
  claim_C3_amended DeviceSpeed.low usbActive (State.active idleDeviceMode) rfl
    (by simp)

/-- C4: for every endpoint below 12, `endpoint_in_enable(Control, e)` and
`endpoint_in_enable(Bulk, e)` are the same operation: identical outcome,
identical resulting driver state, and identical register-write trace,
namely exactly the value `1 <<< e` (bit `e`) stored to `rxenable_setup`
and then to `rxenable_out`, and nothing else written. -/
theorem claim_C4 (e : Nat) (u : Usb) (h : e < 12) :
    u.endpoint_in_enable TransferType.control e =
      u.endpoint_in_enable TransferType.bulk e ∧
    u.endpoint_in_enable TransferType.control e =
      ⟨Outcome.ok,
       { u with regs := { u.regs with rxenable_setup := 1 <<< e
                                      rxenable_out := 1 <<< e } },
       [(RegId.rxenableSetup, 1 <<< e), (RegId.rxenableOut, 1 <<< e)]⟩ := by
  have hu : u32 (1 <<< e) = 1 <<< e := u32_one_shiftLeft e (by omega)
  exact ⟨rfl, by simp [Usb.endpoint_in_enable, hu, Regs.doWrites, Regs.applyWrite]⟩

theorem claim_C4_witness :
    (Usb.new Regs.init).endpoint_in_enable TransferType.control 7 =
      (Usb.new Regs.init).endpoint_in_enable TransferType.bulk 7 ∧
    (Usb.new Regs.init).endpoint_in_enable TransferType.control 7 =
      ⟨Outcome.ok,
       { Usb.new Regs.init with
           regs := { (Usb.new Regs.init).regs with
                       rxenable_setup := 1 <<< 7
                       rxenable_out := 1 <<< 7 } },
       [(RegId.rxenableSetup, 1 <<< 7), (RegId.rxenableOut, 1 <<< 7)]⟩ :=
  claim_C4 7 (Usb.new Regs.init) (by omega)

/-- C5 counterexample: `endpoint_in_enable(Isochronous, 0)` does not leave
the other bits of `rxenable_setup` at their prior values: `set(1 << 0)`
overwrites the whole register.  Starting from `rxenable_setup = 2`
(bit 1 set), after the call bit 1 is clear. -/
theorem claim_C5_counterexample :
    Nat.testBit
      ({ regs := { Regs.init with rxenable_setup := 2 }
         descriptors := List.replicate N_ENDPOINTS 0
         state := some State.reset : Usb }).regs.rxenable_setup 1 = true ∧
    Nat.testBit
      (({ regs := { Regs.init with rxenable_setup := 2 }
          descriptors := List.replicate N_ENDPOINTS 0
          state := some State.reset : Usb }).endpoint_in_enable
        TransferType.isochronous 0).usb.regs.rxenable_setup 1 = false := by
  constructor <;> decide

/-- C5 amended: for every endpoint below 12,
`endpoint_in_enable(Isochronous, e)` stores the value `1 <<< e` (exactly
bit `e`) into each of `rxenable_setup`, `rxenable_out` and `iso`,
overwriting the prior contents of those three registers (other bits are
cleared, not preserved); every other register, the descriptor table and
the controller state are unchanged, and the write trace is exactly those
three writes. -/
theorem claim_C5_amended (e : Nat) (u : Usb) (h : e < 12) :
    u.endpoint_in_enable TransferType.isochronous e =
      ⟨Outcome.ok,
       { u with regs := { u.regs with rxenable_setup := 1 <<< e
                                      rxenable_out := 1 <<< e
                                      iso := 1 <<< e } },
       [(RegId.rxenableSetup, 1 <<< e), (RegId.rxenableOut, 1 <<< e),
        (RegId.iso, 1 <<< e)]⟩ := by
  have hu : u32 (1 <<< e) = 1 <<< e := u32_one_shiftLeft e (by omega)
  simp [Usb.endpoint_in_enable, hu, Regs.doWrites, Regs.applyWrite]

theorem claim_C5_amended_witness :
    (Usb.new Regs.init).endpoint_in_enable TransferType.isochronous 4 =
      ⟨Outcome.ok,
       { Usb.new Regs.init with
           regs := { (Usb.new Regs.init).regs with
                       rxenable_setup := 1 <<< 4
                       rxenable_out := 1 <<< 4
                       iso := 1 <<< 4 } },
       [(RegId.rxenableSetup, 1 <<< 4), (RegId.rxenableOut, 1 <<< 4),
        (RegId.iso, 1 <<< 4)]⟩ :=
  claim_C5_amended 4 (Usb.new Regs.init) (by omega)

/-- C6: for every endpoint below 12, `endpoint_out_enable(Control, e)` and
`endpoint_out_enable(Bulk, e)` coincide and perform exactly one register
write, the value `1 <<< e` (bit `e`) to `rxenable_setup`, leaving
`rxenable_out` and `iso` (and everything else) unchanged;
`endpoint_out_enable(Isochronous, e)` additionally stores `1 <<< e` into
`iso`; `endpoint_out_enable(Interrupt, e)` aborts with the
"not implemented" signal, changing nothing. -/
theorem claim_C6 (e : Nat) (u : Usb) (h : e < 12) :
    u.endpoint_out_enable TransferType.control e =
      u.endpoint_out_enable TransferType.bulk e ∧
    u.endpoint_out_enable TransferType.bulk e =
      ⟨Outcome.ok,
       { u with regs := { u.regs with rxenable_setup := 1 <<< e } },
       [(RegId.rxenableSetup, 1 <<< e)]⟩ ∧
    (u.endpoint_out_enable TransferType.bulk e).usb.regs.rxenable_out =
      u.regs.rxenable_out ∧
    (u.endpoint_out_enable TransferType.bulk e).usb.regs.iso = u.regs.iso ∧
    u.endpoint_out_enable TransferType.isochronous e =
      ⟨Outcome.ok,
       { u with regs := { u.regs with rxenable_setup := 1 <<< e
                                      iso := 1 <<< e } },
       [(RegId.rxenableSetup, 1 <<< e), (RegId.iso, 1 <<< e)]⟩ ∧
    u.endpoint_out_enable TransferType.interrupt e =
      ⟨Outcome.notImplemented, u, []⟩ := by
  have hu : u32 (1 <<< e) = 1 <<< e := u32_one_shiftLeft e (by omega)
  refine ⟨rfl, ?_, rfl, rfl, ?_, rfl⟩ <;>
    simp [Usb.endpoint_out_enable, hu, Regs.doWrites, Regs.applyWrite]

theorem claim_C6_witness :
    (Usb.new Regs.init).endpoint_out_enable TransferType.bulk 3 =
      ⟨Outcome.ok,
       { Usb.new Regs.init with
           regs := { (Usb.new Regs.init).regs with rxenable_setup := 1 <<< 3 } },
       [(RegId.rxenableSetup, 1 <<< 3)]⟩ ∧
    ((Usb.new Regs.init).endpoint_out_enable TransferType.bulk 3).usb.regs.rxenable_out =
      (Usb.new Regs.init).regs.rxenable_out ∧
    ((Usb.new Regs.init).endpoint_out_enable TransferType.bulk 3).usb.regs.iso =
      (Usb.new Regs.init).regs.iso := by
  have h := claim_C6 3 (Usb.new Regs.init) (by omega)
  exact ⟨h.2.1, h.2.2.1, h.2.2.2.1⟩

/-- C7: for every endpoint below 12 and every buffer, each buffer-set
operation stores the buffer's address in the targeted descriptor slot
(`endpoint_set_ctrl_buffer` targets slot 0), leaves every other slot
untouched, leaves the registers and the controller state unchanged,
performs zero register writes, and returns normally in every controller
state (the operations never read the state cell). -/
theorem claim_C7 (e : Nat) (buf : Nat) (u : Usb) (h : e < 12)
    (hlen : u.descriptors.length = 12) :
    u.endpoint_set_in_buffer e buf =
      ⟨Outcome.ok, { u with descriptors := u.descriptors.set e buf }, []⟩ ∧
    u.endpoint_set_out_buffer e buf =
      ⟨Outcome.ok, { u with descriptors := u.descriptors.set e buf }, []⟩ ∧
    u.endpoint_set_ctrl_buffer buf =
      ⟨Outcome.ok, { u with descriptors := u.descriptors.set 0 buf }, []⟩ ∧
    (u.descriptors.set e buf)[e]? = some buf ∧
    (∀ j, j ≠ e → (u.descriptors.set e buf)[j]? = u.descriptors[j]?) := by
  have hN : e < N_ENDPOINTS := h
  refine ⟨?_, ?_, ?_, ?_, fun j hj => ?_⟩
  · simp [Usb.endpoint_set_in_buffer, Usb._endpoint_bank_set_buffer, hN]
  · simp [Usb.endpoint_set_out_buffer, Usb._endpoint_bank_set_buffer, hN]
  · simp [Usb.endpoint_set_ctrl_buffer, Usb._endpoint_bank_set_buffer,
      N_ENDPOINTS]
  · exact List.getElem?_set_self (by omega)
  · exact List.getElem?_set_ne (fun hh => hj hh.symm)

theorem claim_C7_witness :
    (Usb.new Regs.init).endpoint_set_in_buffer 5 42 =
      ⟨Outcome.ok,
       { Usb.new Regs.init with
           descriptors := (Usb.new Regs.init).descriptors.set 5 42 },
       []⟩ ∧
    ((Usb.new Regs.init).descriptors.set 5 42)[5]? = some 42 ∧
    ((Usb.new Regs.init).descriptors.set 5 42)[3]? =
      (Usb.new Regs.init).descriptors[3]? := by
  have h := claim_C7 5 42 (Usb.new Regs.init) (by omega) (by rfl)
  exact ⟨h.1, h.2.2.2.1, h.2.2.2.2 3 (by omega)⟩

/-- C8: every declared-but-unbuilt operation (`detach`, `set_address`,
`enable_address`, `endpoint_in_out_enable`, `endpoint_resume_in`,
`endpoint_resume_out`, and `endpoint_in_enable` / `endpoint_out_enable`
with the `Interrupt` transfer type) aborts with the explicit
`unimplemented!()` signal — a fatal outcome distinct from normal return —
leaving the driver state (registers, descriptors, controller state)
unchanged and performing zero register writes. -/
theorem claim_C8 (u : Usb) (a : Nat) (t : TransferType) (e : Nat) :
    u.detach = ⟨Outcome.notImplemented, u, []⟩ ∧
    u.set_address a = ⟨Outcome.notImplemented, u, []⟩ ∧
    u.enable_address = ⟨Outcome.notImplemented, u, []⟩ ∧
    u.endpoint_in_out_enable t e = ⟨Outcome.notImplemented, u, []⟩ ∧
    u.endpoint_resume_in e = ⟨Outcome.notImplemented, u, []⟩ ∧
    u.endpoint_resume_out e = ⟨Outcome.notImplemented, u, []⟩ ∧
    u.endpoint_in_enable TransferType.interrupt e =
      ⟨Outcome.notImplemented, u, []⟩ ∧
    u.endpoint_out_enable TransferType.interrupt e =
      ⟨Outcome.notImplemented, u, []⟩ ∧
    Outcome.notImplemented ≠ Outcome.ok ∧
    Outcome.isFatal Outcome.notImplemented = true := by
  refine ⟨rfl, rfl, rfl, rfl, rfl, rfl, rfl, rfl, ?_, rfl⟩
  intro hc
  cases hc

/-- C9: the interrupt entry point `handle_interrupt` only logs "USB IRQ":
for every driver state it returns normally with the driver state —
registers, descriptor table and controller state — unchanged, and performs
zero register writes (it reads no interrupt-status bits: the operation is
constant in the register block). -/
theorem claim_C9 (u : Usb) :
    u.handle_interrupt = ⟨Outcome.warn msgUsbIrq, u, []⟩ := rfl

/-- The state cell holds a value, and that value never carries `Mode::Host`. -/
def goodCell (u : Usb) : Prop :=
  ∃ s, u.state = some s ∧ s.deviceOnly = true

theorem bank_set_state (u : Usb) (e b : Nat) :
    ((u._endpoint_bank_set_buffer e b).usb).state = u.state := by
  unfold Usb._endpoint_bank_set_buffer
  split <;> rfl

theorem step_goodCell (u : Usb) (op : Op) (h : goodCell u) :
    goodCell (u.step op) := by
  obtain ⟨s, hs, hd⟩ := h
  cases op with
  | enableAsDevice speed =>
      cases s with
      | reset =>
          refine ⟨State.idle
            (Mode.device speed DeviceConfig.default DeviceState.default),
            ?_, rfl⟩
          simp [Usb.step, Usb.enable_as_device, Usb.get_state, hs, Usb._enable]
      | idle m =>
          exact ⟨State.idle m,
            by simp [Usb.step, Usb.enable_as_device, Usb.get_state, hs], hd⟩
      | active m =>
          exact ⟨State.active m,
            by simp [Usb.step, Usb.enable_as_device, Usb.get_state, hs], hd⟩
  | attach =>
      cases s with
      | reset =>
          exact ⟨State.reset,
            by simp [Usb.step, Usb.attach, Usb.get_state, hs], rfl⟩
      | idle m =>
          exact ⟨State.active m,
            by simp [Usb.step, Usb.attach, Usb.get_state, hs], hd⟩
      | active m =>
          exact ⟨State.active m,
            by simp [Usb.step, Usb.attach, Usb.get_state, hs], hd⟩
  | detach => exact ⟨s, hs, hd⟩
  | setAddress a => exact ⟨s, hs, hd⟩
  | enableAddress => exact ⟨s, hs, hd⟩
  | endpointInEnable t e => cases t <;> exact ⟨s, hs, hd⟩
  | endpointOutEnable t e => cases t <;> exact ⟨s, hs, hd⟩
  | endpointInOutEnable t e => exact ⟨s, hs, hd⟩
  | endpointResumeIn e => exact ⟨s, hs, hd⟩
  | endpointResumeOut e => exact ⟨s, hs, hd⟩
  | setCtrlBuffer b =>
      exact ⟨s, (bank_set_state u 0 b).trans hs, hd⟩
  | setInBuffer e b =>
      exact ⟨s, (bank_set_state u e b).trans hs, hd⟩
  | setOutBuffer e b =>
      exact ⟨s, (bank_set_state u e b).trans hs, hd⟩
  | handleInterrupt => exact ⟨s, hs, hd⟩

theorem run_goodCell (ops : List Op) (u : Usb) (h : goodCell u) :
    goodCell (u.run ops) := by
  induction ops generalizing u with
  | nil => exact h
  | cons op rest ih => exact ih (u.step op) (step_goodCell u op h)

/-- C10: `get_state` on an empty state cell halts with the fatal
"get_state: state value is in use" signal; and from construction
(`Usb::new`, cell holding `Reset`), after every sequence of public
operations the cell again holds exactly one value, and that value is
`Reset`, `Idle(Device{..})` or `Active(Device{..})` — the `Host` mode
variant is never constructed. -/
theorem claim_C10 :
    (∀ u : Usb, u.state = none →
      u.get_state = Except.error (Outcome.panicked msgStateInUse)) ∧
    (∀ (regs0 : Regs) (ops : List Op),
      ∃ s, ((Usb.new regs0).run ops).state = some s ∧
        s.deviceOnly = true) := by
  constructor
  · intro u h
    simp [Usb.get_state, h]
  · intro regs0 ops
    exact run_goodCell ops (Usb.new regs0) ⟨State.reset, rfl, rfl⟩

theorem claim_C10_witness :
    ({ regs := Regs.init
       descriptors := List.replicate N_ENDPOINTS 0
       state := none : Usb }).get_state =
      Except.error (Outcome.panicked msgStateInUse) ∧
    ∃ s, ((Usb.new Regs.init).run
        [Op.enableAsDevice DeviceSpeed.full, Op.attach]).state = some s ∧
      s.deviceOnly = true :=
  ⟨claim_C10.1 _ rfl,
   claim_C10.2 Regs.init [Op.enableAsDevice DeviceSpeed.full, Op.attach]⟩

end Usbdev
